import Mathlib

/-!
Verification of the vehicle-position estimation, animation and polling logic of the
london-transport-dashboard frontend (AnimatedVehicleMap.jsx, VehicleMapModal, LiveVehicles, App).

JavaScript numbers are modelled as rationals (ℚ); `undefined`/`null` values as `Option`;
the transcendental functions `Math.sin`, `Math.cos` and the constant `Math.PI` are
abstracted into a `TrigModel` carrying the boundedness facts the proofs need.
-/

/-- Semantics of the JavaScript expression `o || d` when `o` holds a string or is
undefined/null: the empty string is falsy. -/
def jsOrStr (o : Option String) (d : String) : String :=
  match o with
  | some s => if s = "" then d else s
  | none => d

/-- Semantics of the JavaScript expression `o || d` when `o` holds a number or is
undefined/null: the number 0 is falsy. -/
def jsOrQ (o : Option ℚ) (d : ℚ) : ℚ :=
  match o with
  | some x => if x = 0 then d else x
  | none => d

/-- JavaScript truthiness of a possibly-undefined number: defined and nonzero. -/
def truthyQ (o : Option ℚ) : Bool :=
  match o with
  | some x => decide (x ≠ 0)
  | none => false

/-- ToInt32 coercion used by the JavaScript `<<` operator: wrap into [-2^31, 2^31). -/
def toInt32 (n : ℤ) : ℤ :=
  (n + 2 ^ 31) % 2 ^ 32 - 2 ^ 31

/-- One step of the hash loop `hash = charCode + ((hash << 5) - hash)` from
AnimatedVehicleMap.jsx: `hash << 5` coerces to int32 and wraps, the outer
subtraction and addition are exact. -/
def jsHashStep (h : ℤ) (c : ℕ) : ℤ :=
  (c : ℤ) + (toInt32 (h * 32) - h)

/-- The string hash from AnimatedVehicleMap.jsx, folding `jsHashStep` over the
UTF-16 code units of the vehicle id (ASCII ids make code unit = code point). -/
def jsHashInt (s : String) : ℤ :=
  s.data.foldl (fun h c => jsHashStep h c.toNat) 0

/-- Absolute value of the hash, `hash = Math.abs(hash)`. -/
def jsHashAbs (s : String) : ℕ :=
  (jsHashInt s).natAbs

/-- Leading decimal digits of a character list folded to a number;
`none` when the list does not start with a digit (parseInt returns NaN). -/
def parseDigits (cs : List Char) : Option ℕ :=
  let ds := cs.takeWhile Char.isDigit
  if ds = [] then none
  else some (ds.foldl (fun acc c => acc * 10 + (c.toNat - 48)) 0)

/-- Model of the JavaScript `parseInt` builtin on base-10 input, as applied to TfL
bearing strings: skip spaces, optional sign, leading digits; `none` models NaN. -/
def parseIntJS (s : String) : Option ℤ :=
  let cs := s.data.dropWhile (fun c => c = ' ')
  match cs with
  | '-' :: rest => (parseDigits rest).map (fun n => -(n : ℤ))
  | '+' :: rest => (parseDigits rest).map (fun n => (n : ℤ))
  | _ => (parseDigits cs).map (fun n => (n : ℤ))

/-- Abstraction of `Math.sin`, `Math.cos` and `Math.PI`: arbitrary functions bounded
by 1 in absolute value, which is all of the analytic content the dashboard's
position formulas rely on. -/
structure TrigModel where
  sin : ℚ → ℚ
  cos : ℚ → ℚ
  pi : ℚ
  sin_le_one : ∀ x, sin x ≤ 1
  neg_one_le_sin : ∀ x, -1 ≤ sin x
  cos_le_one : ∀ x, cos x ≤ 1
  neg_one_le_cos : ∀ x, -1 ≤ cos x

/-- Degenerate trig model (sin = cos = 0) used to evaluate the embedding on
concrete inputs whose control path never consults the trig functions. -/
def tmZero : TrigModel where
  sin := fun _ => 0
  cos := fun _ => 0
  pi := 3.141592653589793
  sin_le_one := fun _ => by norm_num
  neg_one_le_sin := fun _ => by norm_num
  cos_le_one := fun _ => by norm_num
  neg_one_le_cos := fun _ => by norm_num

/-- Input vehicle record, the fields of the GraphQL `vehicleTracking` payload that
the processing step in AnimatedVehicleMap.jsx reads. `Option` marks fields that
may be undefined/null. -/
structure VehicleIn where
  id : Option String
  vehicleId : Option String
  lat : Option ℚ
  lon : Option ℚ
  heading : Option ℚ
  bearing : Option String
  direction : Option String
  hasRealPosition : Option Bool
  positionSource : Option String
deriving Repr, DecidableEq

/-- Entry of `vehiclePositionCache`: the displayed position together with the base
coordinates it was derived from. -/
structure CacheEntry where
  lat : ℚ
  lon : ℚ
  baseLat : ℚ
  baseLon : ℚ
deriving Repr, DecidableEq

/-- The position cache, a JavaScript `Map` keyed by vehicle id, modelled as an
association list with at most one binding per key in insertion order. -/
def Cache : Type := List (String × CacheEntry)

/-- Lookup in the position cache, `vehiclePositionCache.current.get(vehicleId)`. -/
def cacheGet (c : Cache) (k : String) : Option CacheEntry :=
  List.lookup k c

/-- Write to the position cache, `vehiclePositionCache.current.set(vehicleId, e)`:
replace the binding in place if the key is present, append otherwise. -/
def cacheSet (c : Cache) (k : String) (e : CacheEntry) : Cache :=
  match c with
  | [] => [(k, e)]
  | (k', e') :: rest => if k' = k then (k, e) :: rest else (k', e') :: cacheSet rest k e

/-- Effective vehicle id: `vehicle.vehicleId || vehicle-INDEX`. -/
def effVehicleId (v : VehicleIn) (index : ℕ) : String :=
  jsOrStr v.vehicleId ("vehicle-" ++ toString index)

/-- The `hasValidCoords` check of AnimatedVehicleMap.jsx: coordinates defined,
non-null, nonzero and further than 0.1 from zero in absolute value. -/
def hasValidCoords (v : VehicleIn) : Bool :=
  match v.lat, v.lon with
  | some la, some lo => decide (la ≠ 0 ∧ lo ≠ 0 ∧ (0.1 : ℚ) < |la| ∧ (0.1 : ℚ) < |lo|)
  | _, _ => false

/-- Coordinate-proximity test from the `sameCoordCount` filter; an undefined
coordinate makes the JavaScript comparison with NaN false. -/
def coordClose (wlat wlon : Option ℚ) (baseLat baseLon : ℚ) : Bool :=
  match wlat, wlon with
  | some la, some lo => decide (|la - baseLat| < (0.0001 : ℚ) ∧ |lo - baseLon| < (0.0001 : ℚ))
  | _, _ => false

/-- Number of vehicles in the list whose coordinates are within 0.0001 of the base
coordinates (`sameCoordCount` in AnimatedVehicleMap.jsx). -/
def sameCoordCount (vehicles : List VehicleIn) (baseLat baseLon : ℚ) : ℕ :=
  (vehicles.filter (fun w => coordClose w.lat w.lon baseLat baseLon)).length

/-- The spread multiplier ladder of AnimatedVehicleMap.jsx, a function of how many
vehicles share the same coordinates. -/
def spreadMultiplier (n : ℕ) : ℕ :=
  if 50 < n then 10
  else if 20 < n then 7
  else if 10 < n then 5
  else if 5 < n then 3
  else 1

/-- Jitter angle `(hash % 360) * (Math.PI / 180) + index * 0.05`. -/
def jitterAngle (tm : TrigModel) (hash : ℕ) (index : ℕ) : ℚ :=
  ((hash % 360 : ℕ) : ℚ) * (tm.pi / 180) + (index : ℚ) * (0.05 : ℚ)

/-- Jitter radius `0.005 * spreadMultiplier + ((hash % 100) / 100) * 0.003`. -/
def jitterRadius (hash : ℕ) (sm : ℕ) : ℚ :=
  (0.005 : ℚ) * (sm : ℚ) + (((hash % 100 : ℕ) : ℚ) / 100) * (0.003 : ℚ)

/-- Jittered latitude `baseLat + Math.sin(angle) * radius`. -/
def jitterLatF (tm : TrigModel) (hash : ℕ) (index : ℕ) (sm : ℕ) (baseLat : ℚ) : ℚ :=
  baseLat + tm.sin (jitterAngle tm hash index) * jitterRadius hash sm

/-- Jittered longitude `baseLon + Math.cos(angle) * radius`. -/
def jitterLonF (tm : TrigModel) (hash : ℕ) (index : ℕ) (sm : ℕ) (baseLon : ℚ) : ℚ :=
  baseLon + tm.cos (jitterAngle tm hash index) * jitterRadius hash sm

/-- Fallback latitude for a vehicle without valid coordinates:
`51.5074 + ((hash % 1000) / 1000 - 0.5) * 0.15 + Math.sin(index * 0.618) * 0.02`. -/
def fallbackLat (tm : TrigModel) (hash : ℕ) (index : ℕ) : ℚ :=
  (51.5074 : ℚ) + (((hash % 1000 : ℕ) : ℚ) / 1000 - (0.5 : ℚ)) * (0.15 : ℚ)
    + tm.sin ((index : ℚ) * (0.618 : ℚ)) * (0.02 : ℚ)

/-- Fallback longitude for a vehicle without valid coordinates:
`-0.1278 + (((hash * 7) % 1000) / 1000 - 0.5) * 0.2 + Math.cos(index * 0.618) * 0.02`. -/
def fallbackLon (tm : TrigModel) (hash : ℕ) (index : ℕ) : ℚ :=
  (-0.1278 : ℚ) + (((hash * 7 % 1000 : ℕ) : ℚ) / 1000 - (0.5 : ℚ)) * (0.2 : ℚ)
    + tm.cos ((index : ℚ) * (0.618 : ℚ)) * (0.02 : ℚ)

/-- Position assignment for one vehicle, the coordinate part of the map body in
AnimatedVehicleMap.jsx lines 214-332: returns the displayed (lat, lon) and the
updated position cache. `selected` is the selected vehicle's id if one is
selected and it has one (an undefined id never compares equal to a string).
The source's `if (isSelected && cachedPos) A else if (isSelected) B else C`
is rendered as `if isSelected then (match cachedPos ...) else C`. -/
def computePosition (tm : TrigModel) (selected : Option String) (vehicles : List VehicleIn)
    (index : ℕ) (v : VehicleIn) (cache : Cache) : (ℚ × ℚ) × Cache :=
  let vehicleId := effVehicleId v index
  let cachedPos := cacheGet cache vehicleId
  if hasValidCoords v then
    let baseLat := v.lat.getD 0
    let baseLon := v.lon.getD 0
    if selected = some vehicleId then
      match cachedPos with
      | some cp => ((cp.lat, cp.lon), cache)
      | none =>
        ((baseLat, baseLon), cacheSet cache vehicleId ⟨baseLat, baseLon, baseLat, baseLon⟩)
    else
      let hash := jsHashAbs vehicleId
      let sm := spreadMultiplier (sameCoordCount vehicles baseLat baseLon)
      let freshLat := jitterLatF tm hash index sm baseLat
      let freshLon := jitterLonF tm hash index sm baseLon
      let fresh := ((freshLat, freshLon),
        cacheSet cache vehicleId ⟨freshLat, freshLon, baseLat, baseLon⟩)
      match cachedPos with
      | some cp =>
        if |cp.baseLat - baseLat| < (0.001 : ℚ) ∧ |cp.baseLon - baseLon| < (0.001 : ℚ) then
          ((cp.lat, cp.lon), cache)
        else fresh
      | none => fresh
  else
    match cachedPos with
    | some cp => ((cp.lat, cp.lon), cache)
    | none =>
      let hash := jsHashAbs vehicleId
      let la := fallbackLat tm hash index
      let lo := fallbackLon tm hash index
      ((la, lo), cacheSet cache vehicleId ⟨la, lo, 51.5074, -0.1278⟩)

/-- Direction-based default heading: 180 for direction `inbound`, 0 otherwise. -/
def directionDefault (v : VehicleIn) : ℚ :=
  if v.direction = some "inbound" then 180 else 0

/-- Heading fallback `vehicle.bearing ? parseInt(vehicle.bearing) : default`: the
truthiness test is on the bearing STRING, so a bearing of "0" parses to 0 and a
non-numeric bearing yields NaN (modelled as `none`). -/
def headingFallback (v : VehicleIn) : Option ℚ :=
  match v.bearing with
  | some b => if b = "" then some (directionDefault v) else (parseIntJS b).map (fun n => (n : ℚ))
  | none => some (directionDefault v)

/-- The heading chain `vehicle.heading || (vehicle.bearing ? parseInt(...) : default)`. -/
def headingChain (v : VehicleIn) : Option ℚ :=
  match v.heading with
  | some h => if h = 0 then headingFallback v else some h
  | none => headingFallback v

/-- Processed heading, `Math.floor` of the chain; `none` models NaN. -/
def headingJS (v : VehicleIn) : Option ℤ :=
  (headingChain v).map Int.floor

/-- Position source `vehicle.positionSource || (hasRealPosition === true ? 'text_location' : 'simulated')`. -/
def positionSourceJS (v : VehicleIn) : String :=
  jsOrStr v.positionSource (if v.hasRealPosition = some true then "text_location" else "simulated")

/-- Output record of the processing step, the fields the claims are about. -/
structure ProcessedVehicle where
  id : String
  vehicleId : Option String
  currentLat : ℚ
  currentLon : ℚ
  lat : ℚ
  lon : ℚ
  heading : Option ℤ
  hasRealPosition : Bool
  vehicleIndex : ℕ
  positionSource : String
deriving Repr, DecidableEq

/-- Full processing of one vehicle (the `vehicles.map` body of
AnimatedVehicleMap.jsx): position, heading and position-source assignment,
returning the processed vehicle and the updated cache. -/
def processVehicle (tm : TrigModel) (selected : Option String) (vehicles : List VehicleIn)
    (index : ℕ) (v : VehicleIn) (cache : Cache) : ProcessedVehicle × Cache :=
  let r := computePosition tm selected vehicles index v cache
  ({ id := jsOrStr v.id (effVehicleId v index)
     vehicleId := v.vehicleId
     currentLat := r.1.1
     currentLon := r.1.2
     lat := r.1.1
     lon := r.1.2
     heading := headingJS v
     hasRealPosition := v.hasRealPosition = some true
     vehicleIndex := index
     positionSource := positionSourceJS v }, r.2)

/-- Processing of a suffix of the vehicle list starting at a given index, threading
the position cache left to right as the JavaScript `map` over the mutable cache does. -/
def processListAux (tm : TrigModel) (selected : Option String) (all : List VehicleIn) :
    List VehicleIn → ℕ → Cache → List ProcessedVehicle × Cache
  | [], _, c => ([], c)
  | v :: rest, i, c =>
    let r := processVehicle tm selected all i v c
    let rs := processListAux tm selected all rest (i + 1) r.2
    (r.1 :: rs.1, rs.2)

/-- Processing of the whole vehicle list (`vehicles.map((vehicle, index) => ...)`). -/
def processVehicles (tm : TrigModel) (selected : Option String) (vs : List VehicleIn)
    (cache : Cache) : List ProcessedVehicle × Cache :=
  processListAux tm selected vs vs 0 cache

/-- State carried by `prevPosRef` in VehicleMapModal: previous latitude/longitude
(possibly still the initial, undefined, vehicle coordinates) and previous
time-to-station (already defaulted through `|| 0`). -/
structure PrevData where
  lat : Option ℚ
  lon : Option ℚ
  timeToStation : ℚ
deriving Repr, DecidableEq

/-- Input to the VehicleMapModal animation effect: the fields of the vehicle prop
it reads. -/
structure ModalVehicle where
  lat : Option ℚ
  lon : Option ℚ
  timeToStation : Option ℚ
  nextStopCoords : Option (ℚ × ℚ)
deriving Repr, DecidableEq

/-- The divisor `maxTime = prevData.timeToStation || 60`. -/
def maxTimeJS (prevT : ℚ) : ℚ :=
  if prevT = 0 then 60 else prevT

/-- The fraction `timeProgress = Math.min(1, timeDiff / maxTime)` of the distance to
the next stop the marker should cover during this animation. -/
def timeProgressJS (prevT currT : ℚ) : ℚ :=
  min 1 ((prevT - currT) / maxTimeJS prevT)

/-- The ease-out-quad easing `eased = 1 - (1 - t) * (1 - t)` of VehicleMapModal. -/
def easedFun (t : ℚ) : ℚ :=
  1 - (1 - t) * (1 - t)

/-- Animated marker position at frame parameter `t`:
`from + (to - from) * eased * timeProgress` componentwise. -/
def framePos (fromPos toPos : ℚ × ℚ) (tp t : ℚ) : ℚ × ℚ :=
  (fromPos.1 + (toPos.1 - fromPos.1) * easedFun t * tp,
   fromPos.2 + (toPos.2 - fromPos.2) * easedFun t * tp)

/-- Outcome of one run of the VehicleMapModal animation effect. -/
inductive AnimAction where
  | animate (fromPos toPos : ℚ × ℚ) (timeProgress : ℚ)
  | jump (pos : ℚ × ℚ)
  | stay
deriving Repr, DecidableEq

/-- The animation guard
`prevData.timeToStation > currentTimeToStation && vehicle.nextStopCoords && prevData.lat && prevData.lon`. -/
def animGuard (prev : PrevData) (v : ModalVehicle) : Bool :=
  decide (jsOrQ v.timeToStation 0 < prev.timeToStation)
    && v.nextStopCoords.isSome && truthyQ prev.lat && truthyQ prev.lon

/-- One run of the VehicleMapModal animation effect (part_000 lines 83-150): start
the eased animation toward the next stop when the guard holds, otherwise jump
directly to the (defaulted) reported coordinates when they changed, otherwise
leave the marker alone. -/
def modalStep (prev : PrevData) (v : ModalVehicle) : AnimAction :=
  let currT := jsOrQ v.timeToStation 0
  let currLat := jsOrQ v.lat 51.5074
  let currLon := jsOrQ v.lon (-0.1278)
  if animGuard prev v then
    AnimAction.animate (prev.lat.getD 0, prev.lon.getD 0) (v.nextStopCoords.getD (0, 0))
      (timeProgressJS prev.timeToStation currT)
  else if some currLat ≠ prev.lat ∨ some currLon ≠ prev.lon then
    AnimAction.jump (currLat, currLon)
  else
    AnimAction.stay

/-- The `prevPosRef.current` update performed at the end of the effect. -/
def modalNextPrev (v : ModalVehicle) : PrevData :=
  { lat := some (jsOrQ v.lat 51.5074)
    lon := some (jsOrQ v.lon (-0.1278))
    timeToStation := jsOrQ v.timeToStation 0 }

/-- Vehicle record of the LiveVehicles REST list; only identity and one payload
field matter to the claims. -/
structure LiveVehicle where
  vehicleId : Option String
  lineName : String
deriving Repr, DecidableEq

/-- React state of the LiveVehicles component. -/
structure LiveState where
  vehicles : List LiveVehicle
  error : Option String
  selectedVehicle : Option LiveVehicle
  isInitialLoad : Bool
deriving Repr, DecidableEq

/-- Outcome of one `fetchVehicles` attempt: parsed data, a non-ok HTTP response,
or a thrown network/parse error. -/
inductive FetchOutcome where
  | success (data : List LiveVehicle)
  | notOk
  | netError (msg : String)
deriving Repr, DecidableEq

/-- The selected-vehicle refresh on a successful fetch: replace the open modal's
vehicle by its fresh copy when found, keep it otherwise. -/
def refreshSelected (prev : Option LiveVehicle) (data : List LiveVehicle) : Option LiveVehicle :=
  match prev with
  | none => none
  | some p =>
    match data.find? (fun v => v.vehicleId = p.vehicleId) with
    | some found => some found
    | none => some p

/-- One run of `fetchVehicles` in LiveVehicles (part_001 lines 29-55): a non-ok
response throws and is caught like a network error; the catch only sets the
error message; the finally clears the initial-load flag. -/
def fetchStep (s : LiveState) (r : FetchOutcome) : LiveState :=
  match r with
  | FetchOutcome.success data =>
    { vehicles := data
      error := none
      selectedVehicle := refreshSelected s.selectedVehicle data
      isInitialLoad := false }
  | FetchOutcome.notOk =>
    { s with error := some "Failed to fetch vehicles", isInitialLoad := false }
  | FetchOutcome.netError m =>
    { s with error := some m, isInitialLoad := false }

/-- What the LiveVehicles component renders. -/
inductive RenderKind where
  | loadingScreen
  | errorScreen
  | grid
deriving Repr, DecidableEq

/-- The early returns of LiveVehicles: loading screen during initial load, the
error screen when an error is set AND the vehicles list is empty, the vehicle
grid otherwise. -/
def renderOf (s : LiveState) : RenderKind :=
  if s.isInitialLoad then RenderKind.loadingScreen
  else if s.error.isSome && s.vehicles.isEmpty then RenderKind.errorScreen
  else RenderKind.grid

/-- Poll interval of the `GET_VEHICLE_TRACKING` GraphQL query in
AnimatedVehicleMap.jsx (`pollInterval: 5000`). -/
def vehicleTrackingPollIntervalMs : ℕ := 5000

/-- Refresh interval of the LiveVehicles REST list
(`setInterval(fetchVehicles, 10000)`). -/
def liveVehiclesRefreshIntervalMs : ℕ := 10000

/-- The selected-vehicle prop as seen by the update effect. -/
structure SelectedVehicleProp where
  vehicleId : Option String
deriving Repr, DecidableEq

/-- Interval installed by the selected-vehicle update effect of
AnimatedVehicleMap.jsx: 15000 ms while a vehicle with a truthy vehicleId is
selected, none otherwise (the guard returns early, and the effect cleanup
clears the interval on deselection). -/
def selectedVehicleUpdateInterval (selectedVehicle : Option SelectedVehicleProp) : Option ℕ :=
  match selectedVehicle with
  | none => none
  | some v =>
    match v.vehicleId with
    | some s => if s = "" then none else some 15000
    | none => none

/-- Interval installed by the Dashboard auto-refresh effect: 30000 ms while the
live tab is active, none otherwise. -/
def dashboardRefreshInterval (selectedTab : String) : Option ℕ :=
  if selectedTab = "live" then some 30000 else none

/-- Payload of the `selectedVehiclePosition` GraphQL response used by
`updateSelectedVehiclePosition`. -/
structure UpdatedPosition where
  lat : ℚ
  lon : ℚ
  heading : Option ℤ
  hasRealPosition : Bool
  positionSource : String
deriving Repr, DecidableEq

/-- Cache write of `updateSelectedVehiclePosition`: store the fresh coordinates
under the selected vehicle's id, as both display and base position. -/
def selectedUpdateCacheWrite (cache : Cache) (selId : String) (u : UpdatedPosition) : Cache :=
  cacheSet cache selId ⟨u.lat, u.lon, u.lat, u.lon⟩

/-- Per-vehicle body of the `setDisplayVehicles(prevVehicles => prevVehicles.map(...))`
update: merge the fresh position into the selected vehicle, keep others as is. -/
def selectedUpdateVehicle (selId : String) (u : UpdatedPosition) (v : ProcessedVehicle) :
    ProcessedVehicle :=
  if v.vehicleId = some selId then
    { v with
      currentLat := u.lat
      currentLon := u.lon
      lat := u.lat
      lon := u.lon
      heading := u.heading
      hasRealPosition := u.hasRealPosition
      positionSource := u.positionSource }
  else v

/-- The display-vehicles update of `updateSelectedVehiclePosition`. -/
def applySelectedUpdate (selId : String) (u : UpdatedPosition) (vs : List ProcessedVehicle) :
    List ProcessedVehicle :=
  vs.map (selectedUpdateVehicle selId u)

/-- Modelled from the claim's words (heading as "the floor of the first truthy
value among the reported heading, the parsed bearing, and a direction-based
default"), to be compared with `headingJS`, which follows the source. -/
def headingFirstTruthy (v : VehicleIn) : Option ℤ :=
  let parsedBearing : Option ℚ :=
    match v.bearing with
    | some b => (parseIntJS b).map (fun n => (n : ℚ))
    | none => none
  if truthyQ v.heading then v.heading.map Int.floor
  else if truthyQ parsedBearing then parsedBearing.map Int.floor
  else some (Int.floor (directionDefault v))

/-! ### Concrete instances used to evaluate the model on explicit inputs -/

/-- Vehicle reporting valid coordinates (51.6, -0.2) under id "A". -/
def c1v : VehicleIn := ⟨none, some "A", some 51.6, some (-0.2), none, none, none, none, none⟩

/-- Cache entry whose base coordinates are within 0.001 of (51.6, -0.2) but whose
display position differs from both. -/
def c1cp : CacheEntry := ⟨51.6005, -0.2003, 51.6002, -0.2001⟩

/-- Cache holding `c1cp` under key "A". -/
def c1cache : Cache := [("A", c1cp)]

/-- First of two distinct vehicles reporting identical coordinates. -/
def c2vA : VehicleIn := ⟨none, some "A", some 51.6, some (-0.2), none, none, none, none, none⟩

/-- Second of two distinct vehicles reporting identical coordinates. -/
def c2vB : VehicleIn := ⟨none, some "B", some 51.6, some (-0.2), none, none, none, none, none⟩

/-- Cache state reachable through `updateSelectedVehiclePosition` writes: ids "A"
and "B" were each stored with display = base = (51.6, -0.2), as happens after
selecting each vehicle while it reports that position. -/
def c2cache : Cache := [("A", ⟨51.6, -0.2, 51.6, -0.2⟩), ("B", ⟨51.6, -0.2, 51.6, -0.2⟩)]

/-- Vehicle with no reported coordinates under id "A". -/
def c5v : VehicleIn := ⟨none, some "A", none, none, none, none, none, none, none⟩

/-- Processed vehicle under id "B", used to exercise the selected-update frame. -/
def c6pv : ProcessedVehicle := ⟨"B", some "B", 51.6, -0.2, 51.6, -0.2, some 90, true, 0, "text_location"⟩

/-- Fresh position payload for the selected-vehicle update. -/
def c6u : UpdatedPosition := ⟨51.7, -0.3, some 10, true, "text_location"⟩

/-- Cache holding an entry for id "B" only. -/
def c6cache : Cache := [("B", ⟨51.6, -0.2, 51.6, -0.2⟩)]

/-- Vehicle with no reported heading, bearing string "0" and direction inbound. -/
def c9v : VehicleIn := ⟨none, some "V1", some 51.6, some (-0.2), none, some "0", some "inbound", none, none⟩

/-- Vehicle with a truthy non-integral reported heading. -/
def c9w : VehicleIn := ⟨none, some "V2", some 51.6, some (-0.2), some 45.5, some "90", some "outbound", none, none⟩

/-! ### Helper lemmas -/

theorem cacheGet_cacheSet_ne (c : Cache) (k : String) (e : CacheEntry) (k' : String)
    (h : k' ≠ k) : cacheGet (cacheSet c k e) k' = cacheGet c k' := by
  have hbeq : (k' == k) = false := beq_eq_false_iff_ne.mpr h
  induction c with
  | nil =>
    simp [cacheGet, cacheSet, List.lookup, hbeq]
  | cons p rest ih =>
    obtain ⟨k₁, e₁⟩ := p
    by_cases hk : k₁ = k
    · subst hk
      simp only [cacheSet, if_pos rfl, cacheGet, List.lookup]
      simp [hbeq]
    · simp only [cacheSet, if_neg hk, cacheGet, List.lookup]
      by_cases hk' : k' = k₁
      · subst hk'
        simp
      · have h1 : (k' == k₁) = false := by simp [hk']
        simp only [h1, cond_false]
        exact ih

theorem spreadMultiplier_mono : ∀ a b : ℕ, a ≤ b → spreadMultiplier a ≤ spreadMultiplier b := by
  intro a b hab
  unfold spreadMultiplier
  split_ifs <;> omega

/-! ### Claim theorems -/

/-- C10. Spread multiplier monotonicity: the spread multiplier is a non-decreasing
function of the number of vehicles sharing the same coordinates, and takes
exactly the values 1, 3, 5, 7, 10 on the count ranges at most 5, 6 to 10,
11 to 20, 21 to 50, and above 50. -/
theorem spread_multiplier_monotone :
    (∀ a b : ℕ, a ≤ b → spreadMultiplier a ≤ spreadMultiplier b) ∧
    (∀ n : ℕ,
      (n ≤ 5 → spreadMultiplier n = 1) ∧
      (6 ≤ n → n ≤ 10 → spreadMultiplier n = 3) ∧
      (11 ≤ n → n ≤ 20 → spreadMultiplier n = 5) ∧
      (21 ≤ n → n ≤ 50 → spreadMultiplier n = 7) ∧
      (51 ≤ n → spreadMultiplier n = 10)) := by
  refine ⟨spreadMultiplier_mono, fun n => ?_⟩
  unfold spreadMultiplier
  refine ⟨fun h => ?_, fun h1 h2 => ?_, fun h1 h2 => ?_, fun h1 h2 => ?_, fun h => ?_⟩ <;>
    split_ifs <;> omega

theorem spread_multiplier_monotone_witness :
    (3 : ℕ) ≤ 7 ∧ spreadMultiplier 3 ≤ spreadMultiplier 7 ∧ spreadMultiplier 7 = 3 := by
  refine ⟨by decide, spread_multiplier_monotone.1 3 7 (by decide), ?_⟩
  exact (spread_multiplier_monotone.2 7).2.1 (by decide) (by decide)

/-- C8. Periodic polling: the vehicle tracking GraphQL query polls every 5000 ms,
the selected vehicle's position is re-fetched on a 15000 ms interval exactly
while a vehicle with a (truthy) vehicleId is selected and the interval is gone
on deselection, the LiveVehicles REST list refreshes every 10000 ms, and the
dashboard data refetches every 30000 ms exactly while the live tab is active. -/
theorem polling_intervals :
    vehicleTrackingPollIntervalMs = 5000 ∧
    liveVehiclesRefreshIntervalMs = 10000 ∧
    (∀ (v : SelectedVehicleProp) (id : String), v.vehicleId = some id → id ≠ "" →
      selectedVehicleUpdateInterval (some v) = some 15000) ∧
    selectedVehicleUpdateInterval none = none ∧
    dashboardRefreshInterval "live" = some 30000 ∧
    (∀ t : String, t ≠ "live" → dashboardRefreshInterval t = none) := by
  refine ⟨rfl, rfl, fun v id hv hid => ?_, rfl, rfl, fun t ht => ?_⟩
  · simp [selectedVehicleUpdateInterval, hv, hid]
  · simp [dashboardRefreshInterval, ht]

theorem polling_intervals_witness :
    (⟨some "V1"⟩ : SelectedVehicleProp).vehicleId = some "V1" ∧ "V1" ≠ "" ∧
    selectedVehicleUpdateInterval (some ⟨some "V1"⟩) = some 15000 ∧
    "journey" ≠ "live" ∧ dashboardRefreshInterval "journey" = none :=
  ⟨rfl, by decide, polling_intervals.2.2.1 ⟨some "V1"⟩ "V1" rfl (by decide),
    by decide, polling_intervals.2.2.2.2.2 "journey" (by decide)⟩

/-- C7. Fetch failure atomicity: when the LiveVehicles fetch throws or the response
is not ok, the resulting state keeps the previous vehicles list and selected
vehicle unchanged and has an error set; and the error screen is rendered only
when the vehicles list is empty. -/
theorem live_fetch_failure_atomicity :
    (∀ (s : LiveState) (r : FetchOutcome),
      (r = FetchOutcome.notOk ∨ ∃ m, r = FetchOutcome.netError m) →
      (fetchStep s r).vehicles = s.vehicles ∧
      (fetchStep s r).selectedVehicle = s.selectedVehicle ∧
      (fetchStep s r).error.isSome = true) ∧
    (∀ s : LiveState, renderOf s = RenderKind.errorScreen → s.vehicles = []) := by
  constructor
  · intro s r hr
    rcases hr with rfl | ⟨m, rfl⟩ <;> simp [fetchStep]
  · intro s hs
    unfold renderOf at hs
    split_ifs at hs with h1 h2
    · cases hv : s.vehicles with
      | nil => rfl
      | cons a l =>
        rw [hv] at h2
        simp at h2

theorem live_fetch_failure_atomicity_witness :
    ((FetchOutcome.notOk = FetchOutcome.notOk ∨
        ∃ m, FetchOutcome.notOk = FetchOutcome.netError m) ∧
      (fetchStep ⟨[⟨some "V1", "12"⟩], none, none, false⟩ FetchOutcome.notOk).vehicles =
        [⟨some "V1", "12"⟩]) ∧
    renderOf ⟨[], some "boom", none, false⟩ = RenderKind.errorScreen ∧
    ([] : List LiveVehicle) = [] := by
  refine ⟨⟨Or.inl rfl, ?_⟩, by decide, ?_⟩
  · exact (live_fetch_failure_atomicity.1 ⟨[⟨some "V1", "12"⟩], none, none, false⟩
      FetchOutcome.notOk (Or.inl rfl)).1
  · exact live_fetch_failure_atomicity.2 ⟨[], some "boom", none, false⟩ (by decide)

/-- C3. Eased interpolation correctness: `eased(t) = 1 - (1 - t)^2` satisfies
eased(0) = 0 and eased(1) = 1 and is monotonically non-decreasing on [0, 1];
every animation frame lies on the segment from the previous position toward the
next-stop position; and the final frame (t = 1) sits at
prev + (next - prev) * timeProgress with
timeProgress = min(1, (prevTime - currTime) / prevTime). -/
theorem modal_eased_interpolation :
    (easedFun 0 = 0 ∧ easedFun 1 = 1) ∧
    (∀ a b : ℚ, 0 ≤ a → a ≤ b → b ≤ 1 → easedFun a ≤ easedFun b) ∧
    (∀ (fromPos toPos : ℚ × ℚ) (prevT currT t : ℚ), 0 ≤ t → t ≤ 1 → 0 ≤ currT → currT < prevT →
      (∃ s : ℚ, 0 ≤ s ∧ s ≤ 1 ∧
        framePos fromPos toPos (timeProgressJS prevT currT) t =
          (fromPos.1 + (toPos.1 - fromPos.1) * s, fromPos.2 + (toPos.2 - fromPos.2) * s)) ∧
      framePos fromPos toPos (timeProgressJS prevT currT) 1 =
        (fromPos.1 + (toPos.1 - fromPos.1) * min 1 ((prevT - currT) / prevT),
         fromPos.2 + (toPos.2 - fromPos.2) * min 1 ((prevT - currT) / prevT))) := by
  refine ⟨⟨by norm_num [easedFun], by norm_num [easedFun]⟩, ?_, ?_⟩
  · intro a b ha hab hb
    unfold easedFun
    nlinarith
  · intro fromPos toPos prevT currT t ht0 ht1 hc hlt
    have hp : 0 < prevT := lt_of_le_of_lt hc hlt
    have hmax : maxTimeJS prevT = prevT := if_neg (ne_of_gt hp)
    have htp0 : 0 ≤ timeProgressJS prevT currT := by
      unfold timeProgressJS
      rw [hmax]
      exact le_min (by norm_num) (div_nonneg (by linarith) hp.le)
    have htp1 : timeProgressJS prevT currT ≤ 1 := min_le_left _ _
    have he0 : 0 ≤ easedFun t := by unfold easedFun; nlinarith
    have he1 : easedFun t ≤ 1 := by unfold easedFun; nlinarith
    constructor
    · refine ⟨easedFun t * timeProgressJS prevT currT, mul_nonneg he0 htp0, ?_, ?_⟩
      · nlinarith
      · simp only [framePos, Prod.mk.injEq]
        constructor <;> ring
    · have hone : easedFun 1 = 1 := by norm_num [easedFun]
      simp only [framePos, timeProgressJS, hmax, hone, Prod.mk.injEq]
      constructor <;> ring

theorem modal_eased_interpolation_witness :
    (0 : ℚ) ≤ (1 / 2 : ℚ) ∧
    ((∃ s : ℚ, 0 ≤ s ∧ s ≤ 1 ∧
        framePos ((0 : ℚ), (0 : ℚ)) ((1 : ℚ), (1 : ℚ)) (timeProgressJS 120 60) (1 / 2) =
          ((0 : ℚ) + ((1 : ℚ) - 0) * s, (0 : ℚ) + ((1 : ℚ) - 0) * s)) ∧
      framePos ((0 : ℚ), (0 : ℚ)) ((1 : ℚ), (1 : ℚ)) (timeProgressJS 120 60) 1 =
        ((0 : ℚ) + ((1 : ℚ) - 0) * min 1 ((120 - 60) / 120),
         (0 : ℚ) + ((1 : ℚ) - 0) * min 1 ((120 - 60) / 120))) :=
  ⟨by norm_num,
    modal_eased_interpolation.2.2 (0, 0) (1, 1) 120 60 (1 / 2)
      (by norm_num) (by norm_num) (by norm_num) (by norm_num)⟩

/-- C4. Animation trigger precondition: the eased animation toward the next stop
runs exactly when the previous timeToStation is strictly greater than the
current one, nextStopCoords is present, and the previous latitude and longitude
are both set (truthy); in every other case where the (defaulted) reported
position differs from the stored previous position, the marker jumps directly
to the new coordinates with no interpolation. -/
theorem modal_animation_trigger :
    (∀ (prev : PrevData) (v : ModalVehicle),
      animGuard prev v = true ↔
        (jsOrQ v.timeToStation 0 < prev.timeToStation ∧ v.nextStopCoords.isSome = true ∧
         truthyQ prev.lat = true ∧ truthyQ prev.lon = true)) ∧
    (∀ (prev : PrevData) (v : ModalVehicle),
      animGuard prev v = true →
      modalStep prev v =
        AnimAction.animate (prev.lat.getD 0, prev.lon.getD 0) (v.nextStopCoords.getD (0, 0))
          (timeProgressJS prev.timeToStation (jsOrQ v.timeToStation 0))) ∧
    (∀ (prev : PrevData) (v : ModalVehicle),
      animGuard prev v = false →
      ∀ fp tp p, modalStep prev v ≠ AnimAction.animate fp tp p) ∧
    (∀ (prev : PrevData) (v : ModalVehicle),
      animGuard prev v = false →
      (some (jsOrQ v.lat 51.5074) ≠ prev.lat ∨ some (jsOrQ v.lon (-0.1278)) ≠ prev.lon) →
      modalStep prev v = AnimAction.jump (jsOrQ v.lat 51.5074, jsOrQ v.lon (-0.1278))) := by
  refine ⟨?_, ?_, ?_, ?_⟩
  · intro prev v
    unfold animGuard
    simp [Bool.and_eq_true, decide_eq_true_eq, and_assoc]
  · intro prev v hg
    simp [modalStep, hg]
  · intro prev v hg fp tp p hcontra
    simp [modalStep, hg] at hcontra
    split_ifs at hcontra
  · intro prev v hg hch
    simp only [modalStep, hg]
    simp only [Bool.false_eq_true, if_false]
    rw [if_pos hch]

theorem modal_animation_trigger_witness :
    animGuard ⟨some 51.5, some (-0.1), 120⟩ ⟨some 51.51, some (-0.11), some 60, some (51.52, -0.12)⟩ = true ∧
    modalStep ⟨some 51.5, some (-0.1), 120⟩ ⟨some 51.51, some (-0.11), some 60, some (51.52, -0.12)⟩ =
      AnimAction.animate
        ((⟨some 51.5, some (-0.1), 120⟩ : PrevData).lat.getD 0,
         (⟨some 51.5, some (-0.1), 120⟩ : PrevData).lon.getD 0)
        ((⟨some 51.51, some (-0.11), some 60, some (51.52, -0.12)⟩ : ModalVehicle).nextStopCoords.getD (0, 0))
        (timeProgressJS 120 (jsOrQ (some 60) 0)) ∧
    animGuard ⟨some 51.5, some (-0.1), 60⟩ ⟨some 51.51, some (-0.11), some 60, none⟩ = false ∧
    modalStep ⟨some 51.5, some (-0.1), 60⟩ ⟨some 51.51, some (-0.11), some 60, none⟩ =
      AnimAction.jump (jsOrQ (some 51.51) 51.5074, jsOrQ (some (-0.11)) (-0.1278)) :=
  ⟨by norm_num [animGuard, jsOrQ, truthyQ],
    modal_animation_trigger.2.1 ⟨some 51.5, some (-0.1), 120⟩
      ⟨some 51.51, some (-0.11), some 60, some (51.52, -0.12)⟩
      (by norm_num [animGuard, jsOrQ, truthyQ]),
    by norm_num [animGuard, jsOrQ, truthyQ],
    modal_animation_trigger.2.2.2 ⟨some 51.5, some (-0.1), 60⟩
      ⟨some 51.51, some (-0.11), some 60, none⟩
      (by norm_num [animGuard, jsOrQ, truthyQ]) (Or.inl (by norm_num [jsOrQ]))⟩

theorem computePosition_cache_hit (tm : TrigModel) (sel : Option String) (vs : List VehicleIn)
    (i : ℕ) (v : VehicleIn) (cache : Cache) (cp : CacheEntry)
    (hv : hasValidCoords v = true)
    (hc : cacheGet cache (effVehicleId v i) = some cp)
    (hla : |cp.baseLat - v.lat.getD 0| < (0.001 : ℚ))
    (hlo : |cp.baseLon - v.lon.getD 0| < (0.001 : ℚ)) :
    computePosition tm sel vs i v cache = ((cp.lat, cp.lon), cache) := by
  by_cases hsel : sel = some (effVehicleId v i)
  · simp [computePosition, hv, hc, hsel]
  · simp [computePosition, hv, hc, hsel, hla, hlo]

theorem computePosition_fresh (tm : TrigModel) (sel : Option String) (vs : List VehicleIn)
    (i : ℕ) (v : VehicleIn) (cache : Cache)
    (hv : hasValidCoords v = true)
    (hsel : sel ≠ some (effVehicleId v i))
    (hmiss : ∀ cp, cacheGet cache (effVehicleId v i) = some cp →
      ¬(|cp.baseLat - v.lat.getD 0| < (0.001 : ℚ) ∧ |cp.baseLon - v.lon.getD 0| < (0.001 : ℚ))) :
    computePosition tm sel vs i v cache =
      ((jitterLatF tm (jsHashAbs (effVehicleId v i)) i
          (spreadMultiplier (sameCoordCount vs (v.lat.getD 0) (v.lon.getD 0))) (v.lat.getD 0),
        jitterLonF tm (jsHashAbs (effVehicleId v i)) i
          (spreadMultiplier (sameCoordCount vs (v.lat.getD 0) (v.lon.getD 0))) (v.lon.getD 0)),
       cacheSet cache (effVehicleId v i)
         ⟨jitterLatF tm (jsHashAbs (effVehicleId v i)) i
            (spreadMultiplier (sameCoordCount vs (v.lat.getD 0) (v.lon.getD 0))) (v.lat.getD 0),
          jitterLonF tm (jsHashAbs (effVehicleId v i)) i
            (spreadMultiplier (sameCoordCount vs (v.lat.getD 0) (v.lon.getD 0))) (v.lon.getD 0),
          v.lat.getD 0, v.lon.getD 0⟩) := by
  cases hc : cacheGet cache (effVehicleId v i) with
  | none => simp [computePosition, hv, hc, hsel]
  | some cp =>
    simp [computePosition, hv, hc, hsel, hmiss cp hc]

theorem computePosition_invalid_hit (tm : TrigModel) (sel : Option String) (vs : List VehicleIn)
    (i : ℕ) (v : VehicleIn) (cache : Cache) (cp : CacheEntry)
    (hv : hasValidCoords v = false)
    (hc : cacheGet cache (effVehicleId v i) = some cp) :
    computePosition tm sel vs i v cache = ((cp.lat, cp.lon), cache) := by
  simp [computePosition, hv, hc]

theorem computePosition_fallback (tm : TrigModel) (sel : Option String) (vs : List VehicleIn)
    (i : ℕ) (v : VehicleIn) (cache : Cache)
    (hv : hasValidCoords v = false)
    (hc : cacheGet cache (effVehicleId v i) = none) :
    computePosition tm sel vs i v cache =
      ((fallbackLat tm (jsHashAbs (effVehicleId v i)) i,
        fallbackLon tm (jsHashAbs (effVehicleId v i)) i),
       cacheSet cache (effVehicleId v i)
         ⟨fallbackLat tm (jsHashAbs (effVehicleId v i)) i,
          fallbackLon tm (jsHashAbs (effVehicleId v i)) i, 51.5074, -0.1278⟩) := by
  simp [computePosition, hv, hc]

theorem computePosition_cache_frame (tm : TrigModel) (sel : Option String) (vs : List VehicleIn)
    (i : ℕ) (v : VehicleIn) (cache : Cache) (k : String) (hk : k ≠ effVehicleId v i) :
    cacheGet (computePosition tm sel vs i v cache).2 k = cacheGet cache k := by
  cases hvc : hasValidCoords v <;>
    cases hc : cacheGet cache (effVehicleId v i) <;>
    by_cases hsel : sel = some (effVehicleId v i) <;>
    simp [computePosition, hvc, hc, hsel] <;>
    first
      | rfl
      | exact cacheGet_cacheSet_ne _ _ _ _ hk
      | (split_ifs <;> first | rfl | exact cacheGet_cacheSet_ne _ _ _ _ hk)

theorem fallbackLat_bound (tm : TrigModel) (h i : ℕ) :
    |fallbackLat tm h i - 51.5074| ≤ (0.095 : ℚ) := by
  have h1 : ((h % 1000 : ℕ) : ℚ) ≤ 999 := by
    exact_mod_cast Nat.le_of_lt_succ (Nat.mod_lt h (by norm_num))
  have h0 : (0 : ℚ) ≤ ((h % 1000 : ℕ) : ℚ) := by positivity
  have hs1 := tm.sin_le_one ((i : ℚ) * (0.618 : ℚ))
  have hs2 := tm.neg_one_le_sin ((i : ℚ) * (0.618 : ℚ))
  unfold fallbackLat
  rw [abs_le]
  constructor <;> nlinarith

theorem fallbackLon_bound (tm : TrigModel) (h i : ℕ) :
    |fallbackLon tm h i + 0.1278| ≤ (0.12 : ℚ) := by
  have h1 : ((h * 7 % 1000 : ℕ) : ℚ) ≤ 999 := by
    exact_mod_cast Nat.le_of_lt_succ (Nat.mod_lt (h * 7) (by norm_num))
  have h0 : (0 : ℚ) ≤ ((h * 7 % 1000 : ℕ) : ℚ) := by positivity
  have hc1 := tm.cos_le_one ((i : ℚ) * (0.618 : ℚ))
  have hc2 := tm.neg_one_le_cos ((i : ℚ) * (0.618 : ℚ))
  unfold fallbackLon
  rw [abs_le]
  constructor <;> nlinarith

/-- C1. Position stability: a vehicle with valid reported coordinates whose cache
entry's stored base coordinates are within 0.001 of the newly reported base
coordinates in both components is assigned exactly the cached display position,
and the whole cache is left unchanged by the step. -/
theorem avm_position_stability (tm : TrigModel) (sel : Option String) (vs : List VehicleIn)
    (i : ℕ) (v : VehicleIn) (cache : Cache) (cp : CacheEntry)
    (hv : hasValidCoords v = true)
    (hc : cacheGet cache (effVehicleId v i) = some cp)
    (hla : |cp.baseLat - v.lat.getD 0| < (0.001 : ℚ))
    (hlo : |cp.baseLon - v.lon.getD 0| < (0.001 : ℚ)) :
    (processVehicle tm sel vs i v cache).1.currentLat = cp.lat ∧
    (processVehicle tm sel vs i v cache).1.currentLon = cp.lon ∧
    (processVehicle tm sel vs i v cache).2 = cache := by
  have h := computePosition_cache_hit tm sel vs i v cache cp hv hc hla hlo
  refine ⟨?_, ?_, ?_⟩ <;> simp [processVehicle, h]

theorem avm_position_stability_witness :
    hasValidCoords c1v = true ∧
    cacheGet c1cache (effVehicleId c1v 0) = some c1cp ∧
    |c1cp.baseLat - c1v.lat.getD 0| < (0.001 : ℚ) ∧
    |c1cp.baseLon - c1v.lon.getD 0| < (0.001 : ℚ) ∧
    ((processVehicle tmZero none [c1v] 0 c1v c1cache).1.currentLat = c1cp.lat ∧
     (processVehicle tmZero none [c1v] 0 c1v c1cache).1.currentLon = c1cp.lon ∧
     (processVehicle tmZero none [c1v] 0 c1v c1cache).2 = c1cache) :=
  ⟨by norm_num [hasValidCoords, c1v, lt_abs],
   by simp [c1cache, c1v, cacheGet, effVehicleId, jsOrStr, List.lookup],
   by norm_num [c1cp, c1v, abs_lt],
   by norm_num [c1cp, c1v, abs_lt],
   avm_position_stability tmZero none [c1v] 0 c1v c1cache c1cp
     (by norm_num [hasValidCoords, c1v, lt_abs])
     (by simp [c1cache, c1v, cacheGet, effVehicleId, jsOrStr, List.lookup])
     (by norm_num [c1cp, c1v, abs_lt]) (by norm_num [c1cp, c1v, abs_lt])⟩

/-- C5. Fallback position generation: a vehicle without valid reported coordinates
and without a cache entry is assigned a position computed purely from the hash
of its (effective) vehicleId and its index; the position lies within
51.5074 ± 0.095 in latitude and -0.1278 ± 0.12 in longitude, and the generated
position (with base coordinates at the centre of London) is written to the
cache; being a function of hash and index only, two runs on the same vehicleId
and index produce the same position. -/
theorem avm_fallback_position (tm : TrigModel) (sel : Option String) (vs : List VehicleIn)
    (i : ℕ) (v : VehicleIn) (cache : Cache)
    (hv : hasValidCoords v = false)
    (hc : cacheGet cache (effVehicleId v i) = none) :
    (processVehicle tm sel vs i v cache).1.currentLat =
      fallbackLat tm (jsHashAbs (effVehicleId v i)) i ∧
    (processVehicle tm sel vs i v cache).1.currentLon =
      fallbackLon tm (jsHashAbs (effVehicleId v i)) i ∧
    |(processVehicle tm sel vs i v cache).1.currentLat - 51.5074| ≤ (0.095 : ℚ) ∧
    |(processVehicle tm sel vs i v cache).1.currentLon + 0.1278| ≤ (0.12 : ℚ) ∧
    (processVehicle tm sel vs i v cache).2 =
      cacheSet cache (effVehicleId v i)
        ⟨fallbackLat tm (jsHashAbs (effVehicleId v i)) i,
         fallbackLon tm (jsHashAbs (effVehicleId v i)) i, 51.5074, -0.1278⟩ := by
  have h := computePosition_fallback tm sel vs i v cache hv hc
  refine ⟨?_, ?_, ?_, ?_, ?_⟩ <;>
    simp [processVehicle, h, fallbackLat_bound, fallbackLon_bound]

theorem avm_fallback_position_witness :
    hasValidCoords c5v = false ∧
    cacheGet ([] : Cache) (effVehicleId c5v 0) = none ∧
    ((processVehicle tmZero none [c5v] 0 c5v []).1.currentLat =
      fallbackLat tmZero (jsHashAbs (effVehicleId c5v 0)) 0 ∧
     (processVehicle tmZero none [c5v] 0 c5v []).1.currentLon =
      fallbackLon tmZero (jsHashAbs (effVehicleId c5v 0)) 0 ∧
     |(processVehicle tmZero none [c5v] 0 c5v []).1.currentLat - 51.5074| ≤ (0.095 : ℚ) ∧
     |(processVehicle tmZero none [c5v] 0 c5v []).1.currentLon + 0.1278| ≤ (0.12 : ℚ) ∧
     (processVehicle tmZero none [c5v] 0 c5v []).2 =
      cacheSet [] (effVehicleId c5v 0)
        ⟨fallbackLat tmZero (jsHashAbs (effVehicleId c5v 0)) 0,
         fallbackLon tmZero (jsHashAbs (effVehicleId c5v 0)) 0, 51.5074, -0.1278⟩) :=
  ⟨by simp [hasValidCoords, c5v],
   by simp [cacheGet, List.lookup],
   avm_fallback_position tmZero none [c5v] 0 c5v []
     (by simp [hasValidCoords, c5v]) (by simp [cacheGet, List.lookup])⟩

/-- C2 (amended). Hash-jitter offset formula: a non-selected vehicle with valid
coordinates and no close-enough cache entry is displayed at the base coordinates
plus an offset computed from the hash of its vehicleId, its index and the
spread radius (lat = baseLat + sin(angle)·radius, lon = baseLon + cos(angle)·radius
with angle = (hash mod 360)·π/180 + index·0.05 and
radius = 0.005·spreadMultiplier + ((hash mod 100)/100)·0.003), and the result is
cached; distinct display positions are NOT guaranteed for distinct vehicles
reporting identical coordinates. -/
theorem avm_jitter_offset_formula (tm : TrigModel) (sel : Option String) (vs : List VehicleIn)
    (i : ℕ) (v : VehicleIn) (cache : Cache)
    (hv : hasValidCoords v = true)
    (hsel : sel ≠ some (effVehicleId v i))
    (hmiss : ∀ cp, cacheGet cache (effVehicleId v i) = some cp →
      ¬(|cp.baseLat - v.lat.getD 0| < (0.001 : ℚ) ∧ |cp.baseLon - v.lon.getD 0| < (0.001 : ℚ))) :
    (processVehicle tm sel vs i v cache).1.currentLat =
      jitterLatF tm (jsHashAbs (effVehicleId v i)) i
        (spreadMultiplier (sameCoordCount vs (v.lat.getD 0) (v.lon.getD 0))) (v.lat.getD 0) ∧
    (processVehicle tm sel vs i v cache).1.currentLon =
      jitterLonF tm (jsHashAbs (effVehicleId v i)) i
        (spreadMultiplier (sameCoordCount vs (v.lat.getD 0) (v.lon.getD 0))) (v.lon.getD 0) ∧
    (processVehicle tm sel vs i v cache).2 =
      cacheSet cache (effVehicleId v i)
        ⟨jitterLatF tm (jsHashAbs (effVehicleId v i)) i
            (spreadMultiplier (sameCoordCount vs (v.lat.getD 0) (v.lon.getD 0))) (v.lat.getD 0),
         jitterLonF tm (jsHashAbs (effVehicleId v i)) i
            (spreadMultiplier (sameCoordCount vs (v.lat.getD 0) (v.lon.getD 0))) (v.lon.getD 0),
         v.lat.getD 0, v.lon.getD 0⟩ := by
  have h := computePosition_fresh tm sel vs i v cache hv hsel hmiss
  refine ⟨?_, ?_, ?_⟩ <;> simp [processVehicle, h]

theorem avm_jitter_offset_formula_witness :
    hasValidCoords c2vA = true ∧
    (none : Option String) ≠ some (effVehicleId c2vA 0) ∧
    ((processVehicle tmZero none [c2vA] 0 c2vA []).1.currentLat =
      jitterLatF tmZero (jsHashAbs (effVehicleId c2vA 0)) 0
        (spreadMultiplier (sameCoordCount [c2vA] (c2vA.lat.getD 0) (c2vA.lon.getD 0)))
        (c2vA.lat.getD 0) ∧
     (processVehicle tmZero none [c2vA] 0 c2vA []).1.currentLon =
      jitterLonF tmZero (jsHashAbs (effVehicleId c2vA 0)) 0
        (spreadMultiplier (sameCoordCount [c2vA] (c2vA.lat.getD 0) (c2vA.lon.getD 0)))
        (c2vA.lon.getD 0) ∧
     (processVehicle tmZero none [c2vA] 0 c2vA []).2 =
      cacheSet [] (effVehicleId c2vA 0)
        ⟨jitterLatF tmZero (jsHashAbs (effVehicleId c2vA 0)) 0
            (spreadMultiplier (sameCoordCount [c2vA] (c2vA.lat.getD 0) (c2vA.lon.getD 0)))
            (c2vA.lat.getD 0),
         jitterLonF tmZero (jsHashAbs (effVehicleId c2vA 0)) 0
            (spreadMultiplier (sameCoordCount [c2vA] (c2vA.lat.getD 0) (c2vA.lon.getD 0)))
            (c2vA.lon.getD 0),
         c2vA.lat.getD 0, c2vA.lon.getD 0⟩) :=
  ⟨by norm_num [hasValidCoords, c2vA, lt_abs],
   by simp,
   avm_jitter_offset_formula tmZero none [c2vA] 0 c2vA []
     (by norm_num [hasValidCoords, c2vA, lt_abs])
     (by simp)
     (by simp [cacheGet, List.lookup])⟩

/-- C2 (counterexample). Two distinct, non-selected vehicles reporting identical
valid coordinates are both assigned the very same display position when their
cache entries (here: states written by earlier selected-vehicle updates at the
same stop) already hold that position, so the processing step does not
guarantee pairwise-distinct display positions. -/
theorem avm_jitter_overlap_counterexample :
    c2vA.vehicleId ≠ c2vB.vehicleId ∧ c2vA.lat = c2vB.lat ∧ c2vA.lon = c2vB.lon ∧
    (processVehicles tmZero none [c2vA, c2vB] c2cache).1.map
        (fun p => (p.currentLat, p.currentLon)) =
      [(51.6, -0.2), (51.6, -0.2)] := by
  have e1 : effVehicleId c2vA 0 = "A" := by simp [c2vA, effVehicleId, jsOrStr]
  have e2 : effVehicleId c2vB 1 = "B" := by simp [c2vB, effVehicleId, jsOrStr]
  have hvA : hasValidCoords c2vA = true := by norm_num [hasValidCoords, c2vA, lt_abs]
  have hvB : hasValidCoords c2vB = true := by norm_num [hasValidCoords, c2vB, lt_abs]
  have hcA : cacheGet c2cache (effVehicleId c2vA 0) = some ⟨51.6, -0.2, 51.6, -0.2⟩ := by
    rw [e1]
    simp [c2cache, cacheGet, List.lookup]
  have hcB : cacheGet c2cache (effVehicleId c2vB 1) = some ⟨51.6, -0.2, 51.6, -0.2⟩ := by
    rw [e2]
    simp [c2cache, cacheGet, List.lookup]
  have hA := computePosition_cache_hit tmZero none [c2vA, c2vB] 0 c2vA c2cache
    ⟨51.6, -0.2, 51.6, -0.2⟩ hvA hcA (by norm_num [c2vA, abs_lt]) (by norm_num [c2vA, abs_lt])
  have hB := computePosition_cache_hit tmZero none [c2vA, c2vB] 1 c2vB c2cache
    ⟨51.6, -0.2, 51.6, -0.2⟩ hvB hcB (by norm_num [c2vB, abs_lt]) (by norm_num [c2vB, abs_lt])
  refine ⟨by simp [c2vA, c2vB], by simp [c2vA, c2vB], by simp [c2vA, c2vB], ?_⟩
  simp [processVehicles, processListAux, processVehicle, hA, hB]

/-- C6. Cache keyed by vehicle id: a cache write under one key leaves every other
key's entry unchanged; the per-vehicle processing step only writes the
processed vehicle's own (effective) id; the selected-vehicle position update
writes only the selected id's cache entry and maps every display vehicle with
a different vehicleId to itself unchanged. -/
theorem cache_keyed_by_vehicle_id :
    (∀ (c : Cache) (k : String) (e : CacheEntry) (k' : String), k' ≠ k →
      cacheGet (cacheSet c k e) k' = cacheGet c k') ∧
    (∀ (tm : TrigModel) (sel : Option String) (vs : List VehicleIn) (i : ℕ) (v : VehicleIn)
      (c : Cache) (k : String), k ≠ effVehicleId v i →
      cacheGet (processVehicle tm sel vs i v c).2 k = cacheGet c k) ∧
    (∀ (c : Cache) (selId : String) (u : UpdatedPosition) (k : String), k ≠ selId →
      cacheGet (selectedUpdateCacheWrite c selId u) k = cacheGet c k) ∧
    (∀ (selId : String) (u : UpdatedPosition) (v : ProcessedVehicle),
      v.vehicleId ≠ some selId → selectedUpdateVehicle selId u v = v) := by
  refine ⟨cacheGet_cacheSet_ne, ?_, ?_, ?_⟩
  · intro tm sel vs i v c k hk
    have : (processVehicle tm sel vs i v c).2 = (computePosition tm sel vs i v c).2 := rfl
    rw [this]
    exact computePosition_cache_frame tm sel vs i v c k hk
  · intro c selId u k hk
    exact cacheGet_cacheSet_ne c selId _ k hk
  · intro selId u v hv
    simp [selectedUpdateVehicle, hv]

theorem cache_keyed_by_vehicle_id_witness :
    ("B" : String) ≠ "A" ∧
    cacheGet (selectedUpdateCacheWrite c6cache "A" c6u) "B" = cacheGet c6cache "B" ∧
    c6pv.vehicleId ≠ some "A" ∧
    selectedUpdateVehicle "A" c6u c6pv = c6pv :=
  ⟨by simp,
   cache_keyed_by_vehicle_id.2.2.1 c6cache "A" c6u "B" (by simp),
   by simp [c6pv],
   cache_keyed_by_vehicle_id.2.2.2 "A" c6u c6pv (by simp [c6pv])⟩

/-- C9 (counterexample). A vehicle with no reported heading, bearing string "0" and
direction 'inbound' gets heading 0 from the code (the truthiness test is on the
bearing STRING, and "0" is truthy), while "the floor of the first truthy value
among the reported heading, the parsed bearing, and the direction default"
would be 180 (the parsed bearing 0 is falsy). -/
theorem heading_first_truthy_counterexample :
    headingJS c9v = some 0 ∧ headingFirstTruthy c9v = some 180 ∧ (0 : ℤ) ≠ 180 := by
  have hp : parseIntJS "0" = some 0 := by decide
  refine ⟨?_, ?_, by decide⟩
  · simp [headingJS, headingChain, headingFallback, c9v, hp]
  · simp [headingFirstTruthy, c9v, hp, truthyQ, directionDefault]

/-- C9 (amended). Heading normalization: the processed heading is the floor of the
reported heading when the latter is truthy; otherwise, when the bearing string
is nonempty, it is the parsed bearing even when that parses to the falsy 0 (and
it is NaN, not an integer, when the bearing does not parse); otherwise it is
180 for direction 'inbound' and 0 otherwise. In particular a reported heading
of 0 falls through to the bearing string or the direction default. -/
theorem heading_normalization :
    (∀ (v : VehicleIn) (h : ℚ), v.heading = some h → h ≠ 0 → headingJS v = some ⌊h⌋) ∧
    (∀ (v : VehicleIn) (b : String), (v.heading = none ∨ v.heading = some 0) →
      v.bearing = some b → b ≠ "" → headingJS v = parseIntJS b) ∧
    (∀ v : VehicleIn, (v.heading = none ∨ v.heading = some 0) →
      (v.bearing = none ∨ v.bearing = some "") →
      headingJS v = some (if v.direction = some "inbound" then (180 : ℤ) else 0)) := by
  refine ⟨?_, ?_, ?_⟩
  · intro v h hh hne
    simp [headingJS, headingChain, hh, hne]
  · intro v b hh hb hne
    rcases hh with hh | hh <;>
      · simp only [headingJS, headingChain, headingFallback, hh, hb, if_neg hne]
        cases hp : parseIntJS b <;> simp [Int.floor_intCast]
  · intro v hh hb
    rcases hh with hh | hh <;> rcases hb with hb | hb <;>
      · simp only [headingJS, headingChain, headingFallback, hh, hb, if_pos rfl,
          Option.map_some]
        by_cases hd : v.direction = some "inbound" <;>
          simp [directionDefault, hd]

theorem heading_normalization_witness :
    c9w.heading = some 45.5 ∧ (45.5 : ℚ) ≠ 0 ∧ headingJS c9w = some ⌊(45.5 : ℚ)⌋ :=
  ⟨rfl, by norm_num, heading_normalization.1 c9w 45.5 rfl (by norm_num)⟩
